import Mathlib

/-
Verification of the `newcert` HTTP handler of this repository
(package `newcert`: `Handler.Handle` and `computeSum`).

The Go code is shallowly embedded as follows.

* Byte slices (`[]byte`) are `List Nat`; the Go conversions `string(b)` and
  `[]byte(s)` are byte-identity, so result fields that the code stores as
  `string(x)` keep the byte-list representation here.
* External library calls and injected collaborators (the standard pem/x509
  decoders, the hash primitives, `csr.Generator.ProcessRequest`,
  `signer.Sign`, `bundler.BundleFromPEMorDER`, `ocsp.Signer.Sign`,
  `stdocsp.ParseResponse`, `dbAccessor.InsertOCSP`) are fields of an
  environment record `Env`; the handler logic itself — the control flow,
  error classification, field selection and record construction of
  `Handler.Handle` — is translated line by line.
* Every collaborator invocation is recorded in an event trace, so that
  claims of the form "X is never called" become statements about the trace.
* `time.Time` values are carried as their unix-seconds integer (`GoTime`);
  the code only ever moves them around or calls `.Unix()`.
-/

namespace NewCert

/-- Go byte slices. -/
abbrev Bytes := List Nat

/-- One decoded PEM block, as returned by `pem.Decode` (the code ignores the
rest of the input). -/
structure PemBlock where
  type : String
  bytes : Bytes
deriving DecidableEq, Repr

/-- `Sum` from the source: digests for a certificate or certificate request,
hex encoded. -/
structure Sum where
  md5 : String
  sha1 : String
  sha256 : String
deriving DecidableEq, Repr

/-- The external cryptographic and parsing primitives used by `computeSum`:
`pem.Decode`, `x509.ParseCertificateRequest`, `x509.ParseCertificate` (each
parser returns the canonical re-derived DER bytes, the `Raw` field), and the
three hash functions. They are library code outside this repository, so they
are abstracted as an oracle record; `computeSum` itself is translated
faithfully on top of them. -/
structure CryptoOracle where
  pemDecode : Bytes → Option PemBlock
  parseCertificateRequest : Bytes → Except String Bytes
  parseCertificate : Bytes → Except String Bytes
  md5 : Bytes → Bytes
  sha1 : Bytes → Bytes
  sha256 : Bytes → Bytes

/-- Upper-case hex digit, as produced by the Go format verb used in
`computeSum` for the digest strings. -/
def hexDigitUpper (n : Nat) : Char :=
  if n < 10 then Char.ofNat (48 + n) else Char.ofNat (55 + n)

/-- Two upper-case hex digits of one byte. -/
def hexByteUpper (b : Nat) : List Char :=
  [hexDigitUpper (b / 16 % 16), hexDigitUpper (b % 16)]

/-- Upper-case hex encoding of a byte slice (Go `fmt.Sprintf "%X"`). -/
def hexUpper (bs : Bytes) : String :=
  String.mk ((bs.map hexByteUpper).flatten)

/-- Lower-case hex digit (Go `encoding/hex`). -/
def hexDigitLower (n : Nat) : Char :=
  if n < 10 then Char.ofNat (48 + n) else Char.ofNat (87 + n)

/-- Two lower-case hex digits of one byte. -/
def hexByteLower (b : Nat) : List Char :=
  [hexDigitLower (b / 16 % 16), hexDigitLower (b % 16)]

/-- Lower-case hex encoding of a byte slice (Go `hex.EncodeToString`), used
for the authority key identifier in the OCSP record. -/
def hexEncodeToString (bs : Bytes) : String :=
  String.mk ((bs.map hexByteLower).flatten)

/-- Errors produced inside `computeSum`: the two guard failures are built
with `errors.NewBadRequestString` (an HTTP 400 error of the repository error
package), while x509 parse failures are returned as plain library errors. -/
inductive SumErr
  | badRequestString (msg : String)
  | parseError (msg : String)
deriving DecidableEq, Repr

/-- The message carried by a `computeSum` error (Go `err.Error()`). -/
def SumErr.message : SumErr → String
  | .badRequestString m => m
  | .parseError m => m

/-- `computeSum` from the source, line by line: decode one PEM block (fail
with the `not a CSR or certificate` bad-request error when none is found),
switch on the block type accepting exactly `CERTIFICATE REQUEST` and
`CERTIFICATE` (any other type is the same bad-request error), parse the
payload, and hash the re-derived raw DER bytes, upper-case hex encoded. -/
def computeSum (o : CryptoOracle) (input : Bytes) : Except SumErr Sum :=
  match o.pemDecode input with
  | none => .error (.badRequestString "not a CSR or certificate")
  | some p =>
    if p.type = "CERTIFICATE REQUEST" then
      match o.parseCertificateRequest p.bytes with
      | .error e => .error (.parseError e)
      | .ok data =>
        .ok { md5 := hexUpper (o.md5 data)
              sha1 := hexUpper (o.sha1 data)
              sha256 := hexUpper (o.sha256 data) }
    else if p.type = "CERTIFICATE" then
      match o.parseCertificate p.bytes with
      | .error e => .error (.parseError e)
      | .ok data =>
        .ok { md5 := hexUpper (o.md5 data)
              sha1 := hexUpper (o.sha1 data)
              sha256 := hexUpper (o.sha256 data) }
    else
      .error (.badRequestString "not a CSR or certificate")

/-- The `CA` section of a certificate request (`csr.CAConfig`). The handler
only tests its presence; its contents are irrelevant to this code path. -/
structure CAConfig where
  pathLength : Nat := 0
deriving DecidableEq, Repr

/-- `csr.CertificateRequest` as seen by this handler: the handler reads only
`Hosts` and `CA` and passes the whole request to the generator; the remaining
subject fields (names, common name, key request, ...) are bundled into one
opaque field that only the generator consumes. -/
structure CertificateRequest where
  hosts : List String
  ca : Option CAConfig
  otherFields : String
deriving DecidableEq, Repr

/-- `newCertRequest` from the source: the JSON wire request. The `bundle`
field is decoded and never read afterwards. -/
structure NewCertRequest where
  request : Option CertificateRequest
  profile : String
  label : String
  bundle : Bool
deriving DecidableEq, Repr

/-- `signer.SignRequest` restricted to the fields this handler fills:
`Request` (the CSR bytes, stored by Go as `string(csr)`), `Profile`, `Label`. -/
structure SignRequest where
  request : Bytes
  profile : String
  label : String
deriving DecidableEq, Repr

/-- A Go `time.Time`, carried as its unix-seconds value. -/
structure GoTime where
  unix : Int
deriving DecidableEq, Repr

/-- An x509 certificate as used by this handler: serial number (a decimal
integer whose Go rendering is `SerialNumber.String()`) and authority key
identifier bytes. -/
structure Certificate where
  serialNumber : Int
  authorityKeyId : Bytes
deriving DecidableEq, Repr

/-- A `bundler.Bundle` restricted to the fields the handler reads: the leaf
certificate `Cert` and the chain expiry `Expires`. -/
structure Bundle where
  cert : Certificate
  expires : GoTime
deriving DecidableEq, Repr

/-- `ocsp.SignRequest` restricted to the fields this handler fills:
`Certificate` and `Status`. -/
structure OcspSignRequest where
  certificate : Certificate
  status : String
deriving DecidableEq, Repr

/-- The parsed OCSP response (`stdocsp.Response`) restricted to the one field
the handler reads: `NextUpdate`. -/
structure OCSPResponse where
  nextUpdate : GoTime
deriving DecidableEq, Repr

/-- `certdb.OCSPRecord` as built by the handler: serial (decimal string),
AKI (lower-case hex), body (the raw signed response bytes, stored by Go as
`string(ocspResponse)`), and expiry (the parsed next-update time). -/
structure OCSPRecord where
  serial : String
  aki : String
  body : Bytes
  expiry : GoTime
deriving DecidableEq, Repr

/-- One collaborator invocation performed by the handler, with the argument
it was invoked on. `computeSum` calls are pure and appear as no event. -/
inductive Event
  | csrGenCall (req : CertificateRequest)
  | signCall (sr : SignRequest)
  | bundleCall (certBytes : Bytes)
  | ocspSignCall (sr : OcspSignRequest)
  | ocspParseCall (resp : Bytes)
  | insertOCSPCall (rec : OCSPRecord)
deriving DecidableEq, Repr

/-- Whether an event belongs to the OCSP attestation and persistence stage. -/
def Event.isOcsp : Event → Bool
  | .ocspSignCall _ => true
  | .ocspParseCall _ => true
  | .insertOCSPCall _ => true
  | _ => false

/-- The error outcomes of `Handler.Handle`, one constructor per `return`
site, keeping track of which errors the handler wraps with
`errors.NewBadRequest` / `errors.NewBadRequestString` (constructor
`badRequest`) and which it propagates verbatim from a collaborator. -/
inductive HandleErr
  | badRequest (msg : String)
  | processErr (msg : String)
  | signErr (msg : String)
  | bundleErr (msg : String)
  | bundleNil
  | ocspSignErr (msg : String)
  | ocspParseErr (msg : String)
  | insertOCSPErr (msg : String)
deriving DecidableEq, Repr

/-- Modelled from the spec: `errors.NewBadRequest` and
`errors.NewBadRequestString` come from the repository error package, which is
not among the sources; per the spec they classify as HTTP 400 client errors
(4xx class), while the status of a verbatim propagated collaborator error
depends on that collaborator and is not determined here. -/
def HandleErr.httpStatus : HandleErr → Option Nat
  | .badRequest _ => some 400
  | _ => none

/-- The `result` map built by the handler, with one field per key of the Go
map literal. `serialNumber` is `bundle.Cert.SerialNumber.String()`,
`expiration` is `bundle.Expires.Unix()`. -/
structure ResultMap where
  privateKey : Bytes
  certificateRequest : Bytes
  certificate : Bytes
  serialNumber : String
  expiration : Int
  sumCertificateRequest : Sum
  sumCertificate : Sum
deriving DecidableEq, Repr

/-- The response written by the handler. Modelled from the spec for the two
success shapes: `api.SendResponse` (plain success) and
`api.SendResponseWithMessage` (success that additionally carries a message
and an error code) are part of the repository api package, which is not among
the sources; the spec describes them as a 2xx-class response without and with
an attached advisory message and code. An error return carries no result
fields at all. -/
inductive HandleResult
  | err (e : HandleErr)
  | okWithMessage (result : ResultMap) (message : String) (code : Int)
  | ok (result : ResultMap)
deriving DecidableEq, Repr

/-- `CSRNoHostMessage` from the source, verbatim. -/
def CSRNoHostMessage : String :=
  "This certificate lacks a \"hosts\" field. This makes it unsuitable for\nwebsites. For more information see the Baseline Requirements for the Issuance and Management\nof Publicly-Trusted Certificates, v.1.1.6, from the CA/Browser Forum (https://cabforum.org);\nspecifically, section 10.2.3 (\"Information Requirements\")."

/-- Modelled from the spec: the error code sent with the no-hosts advisory is
built by the repository error package (not among the sources) from the
policy-error category and the invalid-request reason; only its identity
matters to the handler, which passes it through unchanged. -/
def policyInvalidRequestCode : Int := 5400

/-- The collaborator behaviours injected into one run of the handler:
`csrGen.ProcessRequest` (returning CSR bytes and key bytes),
`signer.Sign`, `bundler.BundleFromPEMorDER` (whose Go call site fixes the
remaining arguments to `nil`, `bundler.Optimal`, `""`; it can return a nil
bundle with a nil error, hence the `Option`), the optional OCSP signer
(`nil` in Go is `none` here), `stdocsp.ParseResponse`, the database accessor
`InsertOCSP` (`none` meaning nil error), and the crypto primitives. -/
structure Env where
  processRequest : CertificateRequest → Except String (Bytes × Bytes)
  sign : SignRequest → Except String Bytes
  bundleFromPEMorDER : Bytes → Except String (Option Bundle)
  ocspSigner : Option (OcspSignRequest → Except String Bytes)
  parseResponse : Bytes → Except String OCSPResponse
  insertOCSP : OCSPRecord → Option String
  crypto : CryptoOracle

/-- The outcome of the body-reading and JSON-unmarshalling prelude of the
handler (`io.ReadAll` and `json.Unmarshal` are library calls): either of the
two failures, or the decoded `newCertRequest`. Note that the Go code
initialises `newCert.Request` with a fresh non-nil request before
unmarshalling, so `request = none` arises only from an explicit JSON null. -/
inductive DecodeOutcome
  | readErr (msg : String)
  | unmarshalErr (msg : String)
  | decoded (nc : NewCertRequest)
deriving Repr

/-- The final `result` map literal of `Handler.Handle`: all fields come from
the generator output, the signer output, the two digest triples, and the
bundle; in particular `expiration` is `bundle.Expires.Unix()`. -/
def assembleResult (key csr certBytes : Bytes) (bundle : Bundle)
    (reqSum certSum : Sum) : ResultMap :=
  { privateKey := key
    certificateRequest := csr
    certificate := certBytes
    serialNumber := toString bundle.cert.serialNumber
    expiration := bundle.expires.unix
    sumCertificateRequest := reqSum
    sumCertificate := certSum }

/-- The final dispatch of `Handler.Handle`: an empty host list sends the
result with `CSRNoHostMessage` and the policy error code, a non-empty one
sends the plain result. -/
def sendResult (hosts : List String) (result : ResultMap) : HandleResult :=
  if hosts.length = 0 then
    .okWithMessage result CSRNoHostMessage policyInvalidRequestCode
  else
    .ok result

/-- The `if h.ocspSigner != nil` block of `Handler.Handle`: when an OCSP
signer is configured, sign a `good` status request for the bundle leaf,
parse the response to recover the next-update time, build the OCSP record
(serial, hex AKI, raw body, parsed expiry) and insert it; any failure aborts
the request. Returns the events of this stage and the error, if any. -/
def ocspStage (env : Env) (bundle : Bundle) : List Event × Option HandleErr :=
  match env.ocspSigner with
  | none => ([], none)
  | some ocspSign =>
    let ocspReq : OcspSignRequest := { certificate := bundle.cert, status := "good" }
    match ocspSign ocspReq with
    | .error e => ([.ocspSignCall ocspReq], some (.ocspSignErr e))
    | .ok ocspResponse =>
      match env.parseResponse ocspResponse with
      | .error e =>
        ([.ocspSignCall ocspReq, .ocspParseCall ocspResponse], some (.ocspParseErr e))
      | .ok ocspParsed =>
        let ocspRecord : OCSPRecord :=
          { serial := toString bundle.cert.serialNumber
            aki := hexEncodeToString bundle.cert.authorityKeyId
            body := ocspResponse
            expiry := ocspParsed.nextUpdate }
        match env.insertOCSP ocspRecord with
        | some e =>
          ([.ocspSignCall ocspReq, .ocspParseCall ocspResponse,
            .insertOCSPCall ocspRecord], some (.insertOCSPErr e))
        | none =>
          ([.ocspSignCall ocspReq, .ocspParseCall ocspResponse,
            .insertOCSPCall ocspRecord], none)

/-- `Handler.Handle` after the decode prelude, line by line: reject a nil
request, reject a present CA section, generate CSR and key, sign, digest the
CSR and the certificate (each failure wrapped as a bad request), bundle the
certificate (a nil bundle with nil error is its own failure), run the OCSP
stage when configured, then assemble and send the result. -/
def handleDecoded (env : Env) (nc : NewCertRequest) : List Event × HandleResult :=
  match nc.request with
  | none => ([], .err (.badRequest "missing request section"))
  | some req =>
    match req.ca with
    | some _ => ([], .err (.badRequest "ca section only permitted in initca"))
    | none =>
      match env.processRequest req with
      | .error e => ([.csrGenCall req], .err (.processErr e))
      | .ok (csr, key) =>
        let signReq : SignRequest :=
          { request := csr, profile := nc.profile, label := nc.label }
        match env.sign signReq with
        | .error e => ([.csrGenCall req, .signCall signReq], .err (.signErr e))
        | .ok certBytes =>
          match computeSum env.crypto csr with
          | .error e =>
            ([.csrGenCall req, .signCall signReq], .err (.badRequest e.message))
          | .ok reqSum =>
            match computeSum env.crypto certBytes with
            | .error e =>
              ([.csrGenCall req, .signCall signReq], .err (.badRequest e.message))
            | .ok certSum =>
              match env.bundleFromPEMorDER certBytes with
              | .error e =>
                ([.csrGenCall req, .signCall signReq, .bundleCall certBytes],
                 .err (.bundleErr e))
              | .ok none =>
                ([.csrGenCall req, .signCall signReq, .bundleCall certBytes],
                 .err .bundleNil)
              | .ok (some bundle) =>
                match ocspStage env bundle with
                | (tr, some e) =>
                  ([.csrGenCall req, .signCall signReq, .bundleCall certBytes] ++ tr,
                   .err e)
                | (tr, none) =>
                  ([.csrGenCall req, .signCall signReq, .bundleCall certBytes] ++ tr,
                   sendResult req.hosts
                     (assembleResult key csr certBytes bundle reqSum certSum))

/-- `Handler.Handle`: the two decode-prelude failures are wrapped with
`errors.NewBadRequest`; otherwise the decoded request is processed. -/
def Handle (env : Env) (d : DecodeOutcome) : List Event × HandleResult :=
  match d with
  | .readErr m => ([], .err (.badRequest m))
  | .unmarshalErr m => ([], .err (.badRequest m))
  | .decoded nc => handleDecoded env nc

/-
Concrete instances used to witness the theorems below. The crypto oracle
recognises two inputs: the byte `[0]` decodes as a CERTIFICATE REQUEST block
and the byte `[1]` as a CERTIFICATE block; anything else has no PEM block.
The parsers are the identity on the payload and the hash primitives are
constant, so the digest strings are fixed and easy to evaluate.
-/

/-- A concrete crypto oracle for evaluating the handler on small inputs. -/
def oracleW : CryptoOracle :=
  { pemDecode := fun b =>
      if b = [0] then some { type := "CERTIFICATE REQUEST", bytes := [0] }
      else if b = [1] then some { type := "CERTIFICATE", bytes := [1] }
      else none
    parseCertificateRequest := fun b => .ok b
    parseCertificate := fun b => .ok b
    md5 := fun _ => [171]
    sha1 := fun _ => [205]
    sha256 := fun _ => [239] }

/-- A concrete bundle: serial 7, AKI bytes `[0, 255]`, expiring at unix 200. -/
def bundleW : Bundle :=
  { cert := { serialNumber := 7, authorityKeyId := [0, 255] }, expires := ⟨200⟩ }

/-- A concrete OCSP signer behaviour returning the response bytes `[3]`. -/
def osignW : OcspSignRequest → Except String Bytes := fun _ => .ok [3]

/-- A concrete environment in which every stage succeeds: the generator
returns CSR `[0]` and key `[2]`, the signer returns certificate `[1]`, the
bundler returns `bundleW`, the OCSP signer is configured and its response
parses to next-update 100 (strictly before the bundle expiry 200), and the
database insert succeeds. -/
def envW : Env :=
  { processRequest := fun _ => .ok ([0], [2])
    sign := fun _ => .ok [1]
    bundleFromPEMorDER := fun _ => .ok (some bundleW)
    ocspSigner := some osignW
    parseResponse := fun _ => .ok { nextUpdate := ⟨100⟩ }
    insertOCSP := fun _ => none
    crypto := oracleW }

/-- A concrete request with a non-empty host list and no CA section. -/
def reqW : CertificateRequest :=
  { hosts := ["example.com"], ca := none, otherFields := "" }

/-- The wire request wrapping `reqW`. -/
def ncW : NewCertRequest :=
  { request := some reqW, profile := "default", label := "primary", bundle := false }

/-- The digest triple produced by `oracleW` (constant hashes `AB`, `CD`, `EF`). -/
def sumW : Sum := { md5 := "AB", sha1 := "CD", sha256 := "EF" }

/-- The result the handler assembles in `envW`. -/
def resW : ResultMap := assembleResult [2] [0] [1] bundleW sumW sumW

/-- The same request with an empty host list. -/
def reqEmptyW : CertificateRequest :=
  { hosts := [], ca := none, otherFields := "" }

/-- The wire request wrapping `reqEmptyW`. -/
def ncEmptyW : NewCertRequest :=
  { request := some reqEmptyW, profile := "default", label := "primary", bundle := false }

/-- A request carrying a CA section. -/
def reqCAW : CertificateRequest :=
  { hosts := ["example.com"], ca := some {}, otherFields := "" }

/-- The wire request wrapping `reqCAW`. -/
def ncCAW : NewCertRequest :=
  { request := some reqCAW, profile := "default", label := "primary", bundle := false }

/-- `oracleW` with a decoder that yields a block of an unsupported type. -/
def oracleOtherW : CryptoOracle :=
  { oracleW with pemDecode := fun _ => some { type := "PRIVATE KEY", bytes := [] } }

/-- `envW` with a failing database insert. -/
def envInsertFailW : Env :=
  { envW with insertOCSP := fun _ => some "insert failed" }

/-- `envW` with a bundler that reports success but returns a nil bundle. -/
def envNilBundleW : Env :=
  { envW with bundleFromPEMorDER := fun _ => .ok none }

/-- `envW` with no OCSP signer configured. -/
def envNoOcspW : Env :=
  { envW with ocspSigner := none }

/-- `envW` with a signer whose output `[5]` holds no PEM block, so the
certificate digest computation fails. -/
def envBadCertW : Env :=
  { envW with sign := fun _ => .ok [5] }

/-- Helper: with a decoded, non-nil request, the handler either returns an
error or sends (plainly or with the advisory) the result assembled from the
generator, signer, digest and bundler outputs, where the bundler succeeded
with a non-nil bundle. -/
theorem handle_outcome (env : Env) (nc : NewCertRequest) (req : CertificateRequest)
    (h : nc.request = some req) :
    (∃ e, (Handle env (.decoded nc)).2 = .err e) ∨
    (∃ key csr certBytes reqSum certSum bundle,
      env.bundleFromPEMorDER certBytes = .ok (some bundle) ∧
      (Handle env (.decoded nc)).2 =
        sendResult req.hosts (assembleResult key csr certBytes bundle reqSum certSum)) := by
  cases hca : req.ca with
  | some c =>
    exact Or.inl ⟨.badRequest "ca section only permitted in initca",
      by simp [Handle, handleDecoded, h, hca]⟩
  | none =>
  cases hpr : env.processRequest req with
  | error e =>
    exact Or.inl ⟨.processErr e, by simp [Handle, handleDecoded, h, hca, hpr]⟩
  | ok p =>
  obtain ⟨csr, key⟩ := p
  cases hs : env.sign { request := csr, profile := nc.profile, label := nc.label } with
  | error e =>
    exact Or.inl ⟨.signErr e, by simp [Handle, handleDecoded, h, hca, hpr, hs]⟩
  | ok certBytes =>
  cases hq : computeSum env.crypto csr with
  | error e =>
    exact Or.inl ⟨.badRequest e.message,
      by simp [Handle, handleDecoded, h, hca, hpr, hs, hq]⟩
  | ok reqSum =>
  cases hc : computeSum env.crypto certBytes with
  | error e =>
    exact Or.inl ⟨.badRequest e.message,
      by simp [Handle, handleDecoded, h, hca, hpr, hs, hq, hc]⟩
  | ok certSum =>
  cases hb : env.bundleFromPEMorDER certBytes with
  | error e =>
    exact Or.inl ⟨.bundleErr e,
      by simp [Handle, handleDecoded, h, hca, hpr, hs, hq, hc, hb]⟩
  | ok ob =>
  cases ob with
  | none =>
    exact Or.inl ⟨.bundleNil,
      by simp [Handle, handleDecoded, h, hca, hpr, hs, hq, hc, hb]⟩
  | some bundle =>
  rcases ho : ocspStage env bundle with ⟨tr, oe⟩
  cases oe with
  | some e =>
    exact Or.inl ⟨e, by simp [Handle, handleDecoded, h, hca, hpr, hs, hq, hc, hb, ho]⟩
  | none =>
    exact Or.inr ⟨key, csr, certBytes, reqSum, certSum, bundle, hb,
      by simp [Handle, handleDecoded, h, hca, hpr, hs, hq, hc, hb, ho]⟩

/-- Helper: with no OCSP signer configured, the OCSP stage does nothing. -/
theorem ocspStage_none (env : Env) (bundle : Bundle) (h : env.ocspSigner = none) :
    ocspStage env bundle = ([], none) := by
  simp [ocspStage, h]

/-- Helper: with no OCSP signer configured, no OCSP event ever appears in the
trace of a run of the handler, whatever the input and the other
collaborators do. -/
theorem no_ocsp_trace (env : Env) (d : DecodeOutcome) (h : env.ocspSigner = none) :
    ∀ e ∈ (Handle env d).1, e.isOcsp = false := by
  intro e he
  cases d with
  | readErr m => simp [Handle] at he
  | unmarshalErr m => simp [Handle] at he
  | decoded nc =>
  cases hreq : nc.request with
  | none => simp [Handle, handleDecoded, hreq] at he
  | some req =>
  cases hca : req.ca with
  | some c => simp [Handle, handleDecoded, hreq, hca] at he
  | none =>
  cases hpr : env.processRequest req with
  | error er =>
    simp [Handle, handleDecoded, hreq, hca, hpr] at he
    subst he; rfl
  | ok p =>
  obtain ⟨csr, key⟩ := p
  cases hs : env.sign { request := csr, profile := nc.profile, label := nc.label } with
  | error er =>
    simp [Handle, handleDecoded, hreq, hca, hpr, hs] at he
    rcases he with rfl | rfl <;> rfl
  | ok certBytes =>
  cases hq : computeSum env.crypto csr with
  | error er =>
    simp [Handle, handleDecoded, hreq, hca, hpr, hs, hq] at he
    rcases he with rfl | rfl <;> rfl
  | ok reqSum =>
  cases hc : computeSum env.crypto certBytes with
  | error er =>
    simp [Handle, handleDecoded, hreq, hca, hpr, hs, hq, hc] at he
    rcases he with rfl | rfl <;> rfl
  | ok certSum =>
  cases hb : env.bundleFromPEMorDER certBytes with
  | error er =>
    simp [Handle, handleDecoded, hreq, hca, hpr, hs, hq, hc, hb] at he
    rcases he with rfl | rfl | rfl <;> rfl
  | ok ob =>
  cases ob with
  | none =>
    simp [Handle, handleDecoded, hreq, hca, hpr, hs, hq, hc, hb] at he
    rcases he with rfl | rfl | rfl <;> rfl
  | some bundle =>
    simp [Handle, handleDecoded, hreq, hca, hpr, hs, hq, hc, hb,
      ocspStage_none env bundle h] at he
    rcases he with rfl | rfl | rfl <;> rfl

/-- C1, counterexample: in `envW` the OCSP capability is configured and
attestation, parsing and persistence all succeed, with the attestation
next-update at unix 100; yet the returned expiration is the bundle expiry
200, not 100. The handler builds the result map with
`bundle.Expires.Unix()` unconditionally. -/
theorem C1_counterexample :
    (Handle envW (.decoded ncW)).2 = .ok resW ∧
    envW.ocspSigner = some osignW ∧
    osignW { certificate := bundleW.cert, status := "good" } = .ok [3] ∧
    envW.parseResponse [3] = .ok { nextUpdate := ⟨100⟩ } ∧
    envW.insertOCSP { serial := "7", aki := "00ff", body := [3], expiry := ⟨100⟩ } = none ∧
    resW.expiration = bundleW.expires.unix ∧
    resW.expiration ≠ (100 : Int) := by
  refine ⟨by decide, rfl, rfl, rfl, rfl, by decide, by decide⟩

/-- C1, amended: when the OCSP capability is configured and attestation,
parsing and persistence all succeed, the returned expiration equals the
bundle expiry in unix seconds; the parsed next-update timestamp flows only
into the expiry field of the persisted revocation record. -/
theorem C1_amended_expiration_is_bundle_expiry
    (env : Env) (nc : NewCertRequest) (req : CertificateRequest)
    (csr key certBytes : Bytes) (reqSum certSum : Sum) (bundle : Bundle)
    (osign : OcspSignRequest → Except String Bytes)
    (ocspResponse : Bytes) (parsed : OCSPResponse)
    (h0 : nc.request = some req)
    (h1 : req.ca = none)
    (h2 : env.processRequest req = .ok (csr, key))
    (h3 : env.sign { request := csr, profile := nc.profile, label := nc.label } = .ok certBytes)
    (h4 : computeSum env.crypto csr = .ok reqSum)
    (h5 : computeSum env.crypto certBytes = .ok certSum)
    (h6 : env.bundleFromPEMorDER certBytes = .ok (some bundle))
    (h7 : env.ocspSigner = some osign)
    (h8 : osign { certificate := bundle.cert, status := "good" } = .ok ocspResponse)
    (h9 : env.parseResponse ocspResponse = .ok parsed)
    (h10 : env.insertOCSP
        { serial := toString bundle.cert.serialNumber
          aki := hexEncodeToString bundle.cert.authorityKeyId
          body := ocspResponse
          expiry := parsed.nextUpdate } = none) :
    Handle env (.decoded nc) =
      ([.csrGenCall req,
        .signCall { request := csr, profile := nc.profile, label := nc.label },
        .bundleCall certBytes,
        .ocspSignCall { certificate := bundle.cert, status := "good" },
        .ocspParseCall ocspResponse,
        .insertOCSPCall
          { serial := toString bundle.cert.serialNumber
            aki := hexEncodeToString bundle.cert.authorityKeyId
            body := ocspResponse
            expiry := parsed.nextUpdate }],
       sendResult req.hosts (assembleResult key csr certBytes bundle reqSum certSum)) ∧
    (assembleResult key csr certBytes bundle reqSum certSum).expiration
      = bundle.expires.unix := by
  constructor
  · simp [Handle, handleDecoded, ocspStage, h0, h1, h2, h3, h4, h5, h6, h7, h8, h9, h10]
  · rfl

/-- C1, witness for the amended theorem at the concrete environment `envW`. -/
theorem C1_amended_witness :
    Handle envW (.decoded ncW) =
      ([.csrGenCall reqW,
        .signCall { request := [0], profile := "default", label := "primary" },
        .bundleCall [1],
        .ocspSignCall { certificate := bundleW.cert, status := "good" },
        .ocspParseCall [3],
        .insertOCSPCall
          { serial := toString bundleW.cert.serialNumber
            aki := hexEncodeToString bundleW.cert.authorityKeyId
            body := [3]
            expiry := ⟨100⟩ }],
       sendResult reqW.hosts (assembleResult [2] [0] [1] bundleW sumW sumW)) ∧
    (assembleResult [2] [0] [1] bundleW sumW sumW).expiration = bundleW.expires.unix :=
  C1_amended_expiration_is_bundle_expiry envW ncW reqW [0] [2] [1] sumW sumW bundleW
    osignW [3] ⟨⟨100⟩⟩ rfl rfl rfl rfl rfl rfl rfl rfl rfl rfl rfl

/-- C2: when the OCSP capability is configured, signing and bundling and
attestation succeeded, but the revocation-record insertion fails, the
handler returns the insertion failure; the error constructor carries no
result fields, so the caller receives neither the private key nor the CSR
nor the certificate PEM, even though the trace shows the signing call
already happened. -/
theorem C2_persistence_failure_aborts
    (env : Env) (nc : NewCertRequest) (req : CertificateRequest)
    (csr key certBytes : Bytes) (reqSum certSum : Sum) (bundle : Bundle)
    (osign : OcspSignRequest → Except String Bytes)
    (ocspResponse : Bytes) (parsed : OCSPResponse) (e : String)
    (h0 : nc.request = some req)
    (h1 : req.ca = none)
    (h2 : env.processRequest req = .ok (csr, key))
    (h3 : env.sign { request := csr, profile := nc.profile, label := nc.label } = .ok certBytes)
    (h4 : computeSum env.crypto csr = .ok reqSum)
    (h5 : computeSum env.crypto certBytes = .ok certSum)
    (h6 : env.bundleFromPEMorDER certBytes = .ok (some bundle))
    (h7 : env.ocspSigner = some osign)
    (h8 : osign { certificate := bundle.cert, status := "good" } = .ok ocspResponse)
    (h9 : env.parseResponse ocspResponse = .ok parsed)
    (h10 : env.insertOCSP
        { serial := toString bundle.cert.serialNumber
          aki := hexEncodeToString bundle.cert.authorityKeyId
          body := ocspResponse
          expiry := parsed.nextUpdate } = some e) :
    Handle env (.decoded nc) =
      ([.csrGenCall req,
        .signCall { request := csr, profile := nc.profile, label := nc.label },
        .bundleCall certBytes,
        .ocspSignCall { certificate := bundle.cert, status := "good" },
        .ocspParseCall ocspResponse,
        .insertOCSPCall
          { serial := toString bundle.cert.serialNumber
            aki := hexEncodeToString bundle.cert.authorityKeyId
            body := ocspResponse
            expiry := parsed.nextUpdate }],
       .err (.insertOCSPErr e)) := by
  simp [Handle, handleDecoded, ocspStage, h0, h1, h2, h3, h4, h5, h6, h7, h8, h9, h10]

/-- C2, witness at the environment with a failing database insert. -/
theorem C2_witness :
    Handle envInsertFailW (.decoded ncW) =
      ([.csrGenCall reqW,
        .signCall { request := [0], profile := "default", label := "primary" },
        .bundleCall [1],
        .ocspSignCall { certificate := bundleW.cert, status := "good" },
        .ocspParseCall [3],
        .insertOCSPCall
          { serial := toString bundleW.cert.serialNumber
            aki := hexEncodeToString bundleW.cert.authorityKeyId
            body := [3]
            expiry := ⟨100⟩ }],
       .err (.insertOCSPErr "insert failed")) :=
  C2_persistence_failure_aborts envInsertFailW ncW reqW [0] [2] [1] sumW sumW bundleW
    osignW [3] ⟨⟨100⟩⟩ "insert failed" rfl rfl rfl rfl rfl rfl
    rfl rfl rfl rfl rfl

/-- C3: every successful response carrying a message carries exactly the
fixed advisory `CSRNoHostMessage` together with the policy error code and
arises only for an empty host list, and every plain successful response
arises only for a non-empty host list. -/
theorem C3_advisory_iff_no_hosts (env : Env) (nc : NewCertRequest)
    (req : CertificateRequest) (h : nc.request = some req) :
    (∀ r m c, (Handle env (.decoded nc)).2 = .okWithMessage r m c →
      req.hosts = [] ∧ m = CSRNoHostMessage ∧ c = policyInvalidRequestCode) ∧
    (∀ r, (Handle env (.decoded nc)).2 = .ok r → req.hosts ≠ []) := by
  rcases handle_outcome env nc req h with ⟨e, he⟩ |
    ⟨key, csr, certBytes, reqSum, certSum, bundle, hb, hres⟩
  · constructor
    · intro r m c hr
      rw [he] at hr
      simp at hr
    · intro r hr
      rw [he] at hr
      simp at hr
  · unfold sendResult at hres
    by_cases hL : req.hosts.length = 0
    · rw [if_pos hL] at hres
      constructor
      · intro r m c hr
        rw [hres] at hr
        simp only [HandleResult.okWithMessage.injEq] at hr
        exact ⟨List.length_eq_zero.mp hL, hr.2.1.symm, hr.2.2.symm⟩
      · intro r hr
        rw [hres] at hr
        simp at hr
    · rw [if_neg hL] at hres
      constructor
      · intro r m c hr
        rw [hres] at hr
        simp at hr
      · intro r hr
        intro hnil
        exact hL (by rw [hnil]; rfl)

/-- C3, witness: in `envW` with the empty-host request the pipeline succeeds
and the advisory response carries the fixed message and the policy code. -/
theorem C3_witness :
    reqEmptyW.hosts = [] ∧ CSRNoHostMessage = CSRNoHostMessage ∧
      policyInvalidRequestCode = policyInvalidRequestCode :=
  (C3_advisory_iff_no_hosts envW ncEmptyW reqEmptyW rfl).1 resW CSRNoHostMessage
    policyInvalidRequestCode rfl

/-- C4: a decoded request whose subject descriptor carries a CA section is
rejected with the bad-request policy guard, and the event trace is empty, so
neither the CSR generator nor the signer (nor anything else) was invoked. -/
theorem C4_ca_guard (env : Env) (nc : NewCertRequest) (req : CertificateRequest)
    (c : CAConfig) (h : nc.request = some req) (hca : req.ca = some c) :
    Handle env (.decoded nc) =
      ([], .err (.badRequest "ca section only permitted in initca")) := by
  simp [Handle, handleDecoded, h, hca]

/-- C4, witness at a concrete request carrying a CA section. -/
theorem C4_witness :
    Handle envW (.decoded ncCAW) =
      ([], .err (.badRequest "ca section only permitted in initca")) :=
  C4_ca_guard envW ncCAW reqCAW {} rfl rfl

/-- C5: `computeSum` fails with the bad-request (malformed input) error when
no PEM block decodes, fails with the same error when the block type is
neither `CERTIFICATE REQUEST` nor `CERTIFICATE`, and returns a digest triple
only when the decoded block has one of those two types. -/
theorem C5_computeSum_type_guard (o : CryptoOracle) (b : Bytes) :
    (o.pemDecode b = none →
      computeSum o b = .error (.badRequestString "not a CSR or certificate")) ∧
    (∀ p, o.pemDecode b = some p → p.type ≠ "CERTIFICATE REQUEST" →
      p.type ≠ "CERTIFICATE" →
      computeSum o b = .error (.badRequestString "not a CSR or certificate")) ∧
    (∀ s, computeSum o b = .ok s →
      ∃ p, o.pemDecode b = some p ∧
        (p.type = "CERTIFICATE REQUEST" ∨ p.type = "CERTIFICATE")) := by
  refine ⟨?_, ?_, ?_⟩
  · intro hn
    simp [computeSum, hn]
  · intro p hp h1 h2
    simp [computeSum, hp, h1, h2]
  · intro s hs
    cases hd : o.pemDecode b with
    | none => simp [computeSum, hd] at hs
    | some p =>
      refine ⟨p, rfl, ?_⟩
      by_cases h1 : p.type = "CERTIFICATE REQUEST"
      · exact Or.inl h1
      · by_cases h2 : p.type = "CERTIFICATE"
        · exact Or.inr h2
        · simp [computeSum, hd, h1, h2] at hs

/-- C5, witness: the input `[9]` holds no PEM block under `oracleW`, and
`oracleOtherW` decodes every input to a block of the unsupported type
`PRIVATE KEY`; both fail with the malformed-input error. -/
theorem C5_witness :
    computeSum oracleW [9] = .error (.badRequestString "not a CSR or certificate") ∧
    computeSum oracleOtherW [0] = .error (.badRequestString "not a CSR or certificate") :=
  ⟨(C5_computeSum_type_guard oracleW [9]).1 rfl,
   (C5_computeSum_type_guard oracleOtherW [0]).2.1
     { type := "PRIVATE KEY", bytes := [] } rfl (by decide) (by decide)⟩

/-- C6: when the chain-bundling call reports no error but returns a nil
bundle, the handler returns the dedicated bundling failure; the error
constructor carries no bundle and no result, so the nil bundle is never
used to build a response. -/
theorem C6_nil_bundle_fails (env : Env) (nc : NewCertRequest) (req : CertificateRequest)
    (csr key certBytes : Bytes) (reqSum certSum : Sum)
    (h0 : nc.request = some req)
    (h1 : req.ca = none)
    (h2 : env.processRequest req = .ok (csr, key))
    (h3 : env.sign { request := csr, profile := nc.profile, label := nc.label } = .ok certBytes)
    (h4 : computeSum env.crypto csr = .ok reqSum)
    (h5 : computeSum env.crypto certBytes = .ok certSum)
    (h6 : env.bundleFromPEMorDER certBytes = .ok none) :
    Handle env (.decoded nc) =
      ([.csrGenCall req,
        .signCall { request := csr, profile := nc.profile, label := nc.label },
        .bundleCall certBytes],
       .err .bundleNil) := by
  simp [Handle, handleDecoded, h0, h1, h2, h3, h4, h5, h6]

/-- C6, witness at the environment whose bundler returns a nil bundle with a
nil error. -/
theorem C6_witness :
    Handle envNilBundleW (.decoded ncW) =
      ([.csrGenCall reqW,
        .signCall { request := [0], profile := "default", label := "primary" },
        .bundleCall [1]],
       .err .bundleNil) :=
  C6_nil_bundle_fails envNilBundleW ncW reqW [0] [2] [1] sumW sumW
    rfl rfl rfl rfl rfl rfl rfl

/-- C7: with no OCSP signer configured, no OCSP signing, parsing or
insertion event ever appears in the trace of any run, and every successful
result has its expiration equal to the unix-seconds expiry of the bundle the
bundler returned. -/
theorem C7_skip_when_unconfigured (env : Env) (d : DecodeOutcome)
    (h : env.ocspSigner = none) :
    (∀ e ∈ (Handle env d).1, e.isOcsp = false) ∧
    (∀ r, ((Handle env d).2 = .ok r ∨
        ∃ m c, (Handle env d).2 = .okWithMessage r m c) →
      ∃ certBytes bundle, env.bundleFromPEMorDER certBytes = .ok (some bundle) ∧
        r.expiration = bundle.expires.unix) := by
  refine ⟨no_ocsp_trace env d h, ?_⟩
  intro r hr
  cases d with
  | readErr m => simp [Handle] at hr
  | unmarshalErr m => simp [Handle] at hr
  | decoded nc =>
  cases hreq : nc.request with
  | none =>
    rw [show Handle env (.decoded nc) =
        ([], .err (.badRequest "missing request section")) by
      simp [Handle, handleDecoded, hreq]] at hr
    simp at hr
  | some req =>
  rcases handle_outcome env nc req hreq with ⟨e, he⟩ |
    ⟨key, csr, certBytes, reqSum, certSum, bundle, hb, hres⟩
  · rw [he] at hr
    simp at hr
  · refine ⟨certBytes, bundle, hb, ?_⟩
    unfold sendResult at hres
    by_cases hL : req.hosts.length = 0
    · rw [if_pos hL] at hres
      rcases hr with hr | ⟨m, c, hr⟩
      · rw [hres] at hr
        simp at hr
      · rw [hres] at hr
        simp only [HandleResult.okWithMessage.injEq] at hr
        rw [← hr.1]
        rfl
    · rw [if_neg hL] at hres
      rcases hr with hr | ⟨m, c, hr⟩
      · rw [hres] at hr
        simp only [HandleResult.ok.injEq] at hr
        rw [← hr]
        rfl
      · rw [hres] at hr
        simp at hr

/-- C7, witness at the environment with no OCSP signer: the CSR generation
event of the successful run is not an OCSP event, and the successful result
has the bundle expiry as expiration. -/
theorem C7_witness :
    (Event.csrGenCall reqW).isOcsp = false ∧
    (∃ certBytes bundle,
      envNoOcspW.bundleFromPEMorDER certBytes = .ok (some bundle) ∧
      resW.expiration = bundle.expires.unix) :=
  ⟨(C7_skip_when_unconfigured envNoOcspW (.decoded ncW) rfl).1
      (Event.csrGenCall reqW) (by decide),
   (C7_skip_when_unconfigured envNoOcspW (.decoded ncW) rfl).2
      resW (Or.inl (by decide))⟩

/-- C8: `computeSum` is pure and deterministic. In this embedding it is a
function of the crypto primitives and the input bytes alone: the handler
threads no other state into it and it performs no collaborator call (it
contributes no event to the trace), so two invocations on equal inputs with
the same primitives return the same digest triple or the same error. -/
theorem C8_computeSum_pure (o1 o2 : CryptoOracle) (b1 b2 : Bytes)
    (ho : o1 = o2) (hb : b1 = b2) :
    computeSum o1 b1 = computeSum o2 b2 := by
  subst ho
  subst hb
  rfl

/-- C8, witness: two invocations on the same concrete input agree. -/
theorem C8_witness : computeSum oracleW [0] = computeSum oracleW [0] :=
  C8_computeSum_pure oracleW oracleW [0] [0] rfl rfl

/-- C9: the `bundle` field of the wire request has no effect: two decoded
requests identical except for that field produce the same event trace and
the same response, for every environment. -/
theorem C9_bundle_field_unused (env : Env) (r : Option CertificateRequest)
    (p l : String) (b1 b2 : Bool) :
    Handle env (.decoded { request := r, profile := p, label := l, bundle := b1 }) =
    Handle env (.decoded { request := r, profile := p, label := l, bundle := b2 }) :=
  rfl

/-- C10: when the signer succeeds but its output fails the certificate
digest computation, the handler wraps the failure as a bad request, the
4xx client-error classification, although the malformed bytes came from the
server-side signer. -/
theorem C10_unparseable_cert_is_bad_request (env : Env) (nc : NewCertRequest)
    (req : CertificateRequest) (csr key certBytes : Bytes) (reqSum : Sum) (e : SumErr)
    (h0 : nc.request = some req)
    (h1 : req.ca = none)
    (h2 : env.processRequest req = .ok (csr, key))
    (h3 : env.sign { request := csr, profile := nc.profile, label := nc.label } = .ok certBytes)
    (h4 : computeSum env.crypto csr = .ok reqSum)
    (h5 : computeSum env.crypto certBytes = .error e) :
    (Handle env (.decoded nc)).2 = .err (.badRequest e.message) ∧
    HandleErr.httpStatus (.badRequest e.message) = some 400 := by
  constructor
  · simp [Handle, handleDecoded, h0, h1, h2, h3, h4, h5]
  · rfl

/-- C10, witness at the environment whose signer returns bytes holding no
PEM block. -/
theorem C10_witness :
    (Handle envBadCertW (.decoded ncW)).2 =
      .err (.badRequest (SumErr.badRequestString "not a CSR or certificate").message) ∧
    HandleErr.httpStatus
      (.badRequest (SumErr.badRequestString "not a CSR or certificate").message) = some 400 :=
  C10_unparseable_cert_is_bad_request envBadCertW ncW reqW [0] [2] [5] sumW
    (.badRequestString "not a CSR or certificate")
    rfl rfl rfl rfl rfl rfl

end NewCert
